import Mathlib

/-!
Shallow embedding of the goapi repository's core components, and proofs of
the specification claims about them.

Modelled source files:
- `goapi/dependencies/dependencies.go` — the type-keyed dependency container
  (`Register`, `RegisterSingleton`, `Resolve`), both as a sequential pure
  model (state passing replaces the mutation of the container's maps through
  the closures) and as small state machines that make the `sync.RWMutex`
  lock operations explicit, for the concurrency claims.
- `goapi/goapi.go` — schema synthesis (`generateSchemaFromStruct`,
  `getFieldSchema`), parameter extraction (`extractParameters`),
  `convertToOpenAPIPath`, `getRouteParameters`, and the paths-map assembly
  loop of `getSwaggerJSON`.
- `goapi/responses/responses.go` — `FormatValidationErrors`.

Go machine aspects are embedded as follows: `reflect.Type` values become the
inductive `GoType`; `interface{}` dependency instances become `Nat` identity
tokens (two instances are "the same reference" iff the tokens are equal);
Go maps become association lists with overwrite-on-insert; `strings.Split`
with a one-character separator becomes a structural split on the string's
character list (so that all definitions reduce inside the kernel).
-/

/-- Identity of a Go `reflect.Type`: a named (non-pointer) type, or a
pointer type.  Only the pointer structure matters to the container's key
normalization, so every non-pointer type is a `named` atom. -/
inductive GoType where
  | named : String → GoType
  | ptr : GoType → GoType
deriving DecidableEq, Repr

/-- Go `reflect.Type.String()` restricted to the types of `GoType`:
pointer types print with a star before the element type. -/
def typeString : GoType → String
  | .named s => s
  | .ptr t => "*" ++ typeString t

/-- Association-list lookup, the model of reading a Go map. -/
def alookup {κ β : Type} [DecidableEq κ] : List (κ × β) → κ → Option β
  | [], _ => none
  | (k₀, v₀) :: rest, k => if k₀ = k then some v₀ else alookup rest k

/-- Association-list insert-or-replace, the model of writing a Go map. -/
def aupsert {κ β : Type} [DecidableEq κ] : List (κ × β) → κ → β → List (κ × β)
  | [], k, v => [(k, v)]
  | (k₀, v₀) :: rest, k, v =>
      if k₀ = k then (k, v) :: rest else (k₀, v₀) :: aupsert rest k v

/-- The request context `*gin.Context` is opaque to the container. -/
abbrev Ctx : Type := Unit

/-- A dependency instance (`interface{}` in Go).  Modelled as a `Nat`
identity token: distinct provider invocations produce distinct tokens, so
token equality is the model of Go reference equality. -/
abbrev Value : Type := Nat

/-- The container's `instances` map (singleton cache). -/
abbrev Instances : Type := List (GoType × Value)

/-- A `DependencyProvider` (`func(c *gin.Context) (interface{}, error)`).
In Go the singleton adapter registered by `RegisterSingleton` mutates the
container's `instances` map through its captured `dc`; in the pure model
that mutation is made explicit by threading the instances map through every
provider. A plain user provider leaves the map unchanged. -/
abbrev Provider : Type := Ctx → Instances → Except String Value × Instances

/-- Model of `DependencyContainer` (its two maps; the `sync.RWMutex` is
modelled separately, in the lock-level state machines below). -/
structure DependencyContainer where
  providers : List (GoType × Provider)
  instances : Instances

/-- Model of `NewDependencyContainer`. -/
def newDependencyContainer : DependencyContainer := ⟨[], []⟩

/-- Key normalization shared by `Register` and `RegisterSingleton`:
`if targetType.Kind() == reflect.Ptr { targetType = targetType.Elem() }` —
exactly one pointer level is stripped from the witness's type. -/
def normalizeKey : GoType → GoType
  | .ptr e => e
  | t => t

/-- Model of `(*DependencyContainer).Register`. -/
def register (dc : DependencyContainer) (provider : Provider) (target : GoType) :
    DependencyContainer :=
  { dc with providers := aupsert dc.providers (normalizeKey target) provider }

/-- The memoizing closure that `RegisterSingleton` stores (sequential view:
the two cache reads of the double-checked locking pattern are kept, the
lock operations are modelled separately below). -/
def singletonProvider (targetType : GoType) (provider : Provider) : Provider :=
  fun c inst =>
    match alookup inst targetType with
    | some cached => (.ok cached, inst)
    | none =>
        -- Double-check pattern: re-read after escalating to the write lock
        match alookup inst targetType with
        | some cached => (.ok cached, inst)
        | none =>
            match provider c inst with
            | (.ok created, inst') => (.ok created, aupsert inst' targetType created)
            | (.error e, inst') => (.error e, inst')

/-- Model of `(*DependencyContainer).RegisterSingleton`. -/
def registerSingleton (dc : DependencyContainer) (provider : Provider) (target : GoType) :
    DependencyContainer :=
  let targetType := normalizeKey target
  { dc with providers := aupsert dc.providers targetType (singletonProvider targetType provider) }

/-- Model of `(*DependencyContainer).Resolve`.  `target` is the
`reflect.Type` of the `target interface{}` argument; a successful
resolution copies the instance into the target location, which the model
returns as the `Except` payload. The returned container carries the
instances map as the invoked provider left it. -/
def resolve (dc : DependencyContainer) (c : Ctx) (target : GoType) :
    Except String Value × DependencyContainer :=
  match target with
  | .ptr elementType =>
      match alookup dc.providers elementType with
      | none => (.error ("no provider registered for type " ++ typeString elementType), dc)
      | some provider =>
          match provider c dc.instances with
          | (.ok created, inst') => (.ok created, { dc with instances := inst' })
          | (.error e, inst') =>
              (.error ("error resolving dependency: " ++ e), { dc with instances := inst' })
  | _ => (.error "target must be a pointer", dc)

/-- Lift a Go user provider (which cannot touch the container's maps) into
the state-threading `Provider` type. -/
def liftProvider (f : Ctx → Except String Value) : Provider :=
  fun c inst => (f c, inst)

/-- The container built by the repository's advanced example
(`src/unnamed/part_001`): a singleton provider registered with the witness
`(*UserService)(nil)` — so the stored key is `UserService` itself. -/
def advancedExampleContainer : DependencyContainer :=
  registerSingleton newDependencyContainer
    (liftProvider fun _ => .ok 0) (.ptr (.named "UserService"))

/-- A container holding one plain provider, for `Database`, whose
invocation always fails. -/
def failingProviderContainer : DependencyContainer :=
  register newDependencyContainer
    (liftProvider fun _ => .error "failed to connect to database") (.named "Database")

/-- One field-level failure reported by the external validation engine
(`validator.FieldError`): its `Field()`, `Tag()`, `Param()` and the
`fmt.Sprintf` rendering of its `Value()`. -/
structure FieldError where
  field : String
  tag : String
  param : String
  value : String
deriving DecidableEq, Repr

/-- Model of `responses.ValidationError`. -/
structure ValidationError where
  field : String
  tag : String
  value : String
  message : String
deriving DecidableEq, Repr

/-- Model of `responses.ValidationErrors`. -/
abbrev ValidationErrors : Type := List ValidationError

/-- Model of `(ValidationErrors).Error()`: semicolon-joined messages. -/
def validationErrorsMessage (ve : ValidationErrors) : String :=
  match ve with
  | [] => ""
  | e :: rest => rest.foldl (fun acc e' => acc ++ "; " ++ e'.message) e.message

/-- The body of the loop in `FormatValidationErrors`: one raw field error
becomes one `ValidationError`, with the message chosen by the `switch` on
the constraint tag. -/
def formatFieldError (fe : FieldError) : ValidationError :=
  { field := fe.field
    tag := fe.tag
    value := fe.value
    message :=
      match fe.tag with
      | "required" => "El campo '" ++ fe.field ++ "' es requerido"
      | "min" => "El campo '" ++ fe.field ++ "' debe tener un valor mínimo de " ++ fe.param
      | "max" => "El campo '" ++ fe.field ++ "' debe tener un valor máximo de " ++ fe.param
      | "email" => "El campo '" ++ fe.field ++ "' debe ser un email válido"
      | "url" => "El campo '" ++ fe.field ++ "' debe ser una URL válida"
      | "len" => "El campo '" ++ fe.field ++ "' debe tener exactamente " ++ fe.param ++ " caracteres"
      | "gte" => "El campo '" ++ fe.field ++ "' debe ser mayor o igual a " ++ fe.param
      | "lte" => "El campo '" ++ fe.field ++ "' debe ser menor o igual a " ++ fe.param
      | _ => "El campo '" ++ fe.field ++ "' no cumple con la validación '" ++ fe.tag ++ "'" }

/-- Model of `responses.FormatValidationErrors`.  The input models the Go
`error` argument after the type assertion
`err.(validator.ValidationErrors)`: `some fieldErrors` when the assertion
succeeds, `none` for any other error value (the assertion fails and the
nil slice is returned). The function is total: it never returns an error. -/
def FormatValidationErrors (err : Option (List FieldError)) : ValidationErrors :=
  match err with
  | none => []
  | some validatorErrors => validatorErrors.map formatFieldError

/-- Spec-side list of the constraint tags the formatter's `switch`
recognizes with a dedicated message template. -/
def recognizedTags : List String :=
  ["required", "min", "max", "email", "url", "len", "gte", "lte"]

/-- Split a character list at every occurrence of the separator.  This is
Go `strings.Split` for a one-character separator, on the string's
characters: `strings.Split("", sep)` is `[""]`, separators at the ends
produce empty fragments. -/
def splitCharList (sep : Char) : List Char → List (List Char)
  | [] => [[]]
  | c :: rest =>
      match splitCharList sep rest with
      | [] => if c = sep then [[], []] else [[c]]
      | grp :: groups =>
          if c = sep then [] :: grp :: groups else (c :: grp) :: groups

/-- Go `strings.Split(s, sep)` for a one-character separator. -/
def goSplit (s : String) (sep : Char) : List String :=
  (splitCharList sep s.data).map String.mk

/-- Go `strings.Join(elems, "/")`. -/
def joinSlash : List String → String
  | [] => ""
  | s :: rest => rest.foldl (fun acc t => acc ++ "/" ++ t) s

/-- ASCII lowercase of one character, the effect of Go `strings.ToLower`
on the HTTP method strings this repository uses. -/
def lowerChar (c : Char) : Char :=
  if 'A' ≤ c ∧ c ≤ 'Z' then Char.ofNat (c.toNat + 32) else c

/-- Go `strings.ToLower` on ASCII strings (HTTP method names). -/
def goToLower (s : String) : String := String.mk (s.data.map lowerChar)

/-- The `reflect.Kind` structure of a Go field value, as far as
`getFieldSchema` inspects it: the primitive kinds it distinguishes, the
sequence kinds, a nil pointer, a non-nil pointer with the value it points
to, and a catch-all for every other kind. -/
inductive GoVal where
  | vString
  | vInt | vInt8 | vInt16 | vInt32 | vInt64
  | vUint | vUint8 | vUint16 | vUint32 | vUint64
  | vFloat32 | vFloat64
  | vBool
  | vSlice | vArray
  | vNilPtr
  | vPtr : GoVal → GoVal
  | vOther
deriving DecidableEq, Repr

/-- A field kind is primitive when it is a string, integer, unsigned
integer, floating-point or boolean kind (the scope of claim C4's "flat
record with only primitive fields"). -/
def isPrimitiveKind : GoVal → Bool
  | .vString | .vInt | .vInt8 | .vInt16 | .vInt32 | .vInt64
  | .vUint | .vUint8 | .vUint16 | .vUint32 | .vUint64
  | .vFloat32 | .vFloat64 | .vBool => true
  | _ => false

/-- The `map[string]interface{}` a field schema is rendered into: its
possible keys are `example`, `type`, `format` and `items.type`. -/
structure FieldSchema where
  exampleVal : Option String
  type : String
  format : Option String
  itemsType : Option String
deriving DecidableEq, Repr

/-- Model of `(*GoAPI).getFieldSchema`: the `switch fieldValue.Kind()`
mapping a field's kind (and its `example` struct tag) to a field schema. -/
def getFieldSchema (fieldValue : GoVal) (exampleTag : String) : FieldSchema :=
  let ex : Option String := if exampleTag = "" then none else some exampleTag
  match fieldValue with
  | .vString => { exampleVal := ex, type := "string", format := none, itemsType := none }
  | .vInt | .vInt8 | .vInt16 | .vInt32 | .vInt64 =>
      { exampleVal := ex, type := "integer", format := some "int64", itemsType := none }
  | .vUint | .vUint8 | .vUint16 | .vUint32 | .vUint64 =>
      { exampleVal := ex, type := "integer", format := some "int64", itemsType := none }
  | .vFloat32 => { exampleVal := ex, type := "number", format := some "float", itemsType := none }
  | .vFloat64 => { exampleVal := ex, type := "number", format := some "double", itemsType := none }
  | .vBool => { exampleVal := ex, type := "boolean", format := none, itemsType := none }
  | .vSlice | .vArray =>
      { exampleVal := ex, type := "array", format := none, itemsType := some "string" }
  | .vPtr pointee => getFieldSchema pointee exampleTag
  | .vNilPtr => { exampleVal := ex, type := "string", format := none, itemsType := none }
  | .vOther => { exampleVal := ex, type := "string", format := none, itemsType := none }

/-- One field of a Go struct as `generateSchemaFromStruct` sees it: the
declared name, the raw `json` struct tag (`""` when absent), the `example`
struct tag, and the field value's kind. -/
structure GoField where
  name : String
  jsonTag : String
  exampleTag : String
  value : GoVal
deriving DecidableEq, Repr

/-- The JSON name the loop in `generateSchemaFromStruct` gives a field:
the first comma-separated part of a `json` tag that is neither empty nor
`"-"`, when that part is itself non-empty; otherwise the Go field name. -/
def fieldJsonName (f : GoField) : String :=
  if f.jsonTag ≠ "" ∧ f.jsonTag ≠ "-" then
    let parts := goSplit f.jsonTag ','
    if parts.headD "" ≠ "" then parts.headD "" else f.name
  else f.name

/-- Whether the loop in `generateSchemaFromStruct` appends the field to the
`required` list: with a `json` tag that is neither empty nor `"-"`, the
field is required unless `omitempty` appears among the tag options; with no
such tag the field is required by default. -/
def fieldRequiredFlag (f : GoField) : Bool :=
  if f.jsonTag ≠ "" ∧ f.jsonTag ≠ "-" then
    !((goSplit f.jsonTag ',').drop 1).contains "omitempty"
  else true

/-- Spec-side predicate, following claim C4's words: the field's
serialization tag carries an omit-when-empty marker, i.e. `omitempty`
appears among the comma-separated options after the name part of the
`json` tag. -/
def hasOmitEmptyMarker (f : GoField) : Bool :=
  ((goSplit f.jsonTag ',').drop 1).contains "omitempty"

/-- The required-field names collected by the loop, in declaration order. -/
def requiredOfFields : List GoField → List String
  | [] => []
  | f :: rest =>
      (if fieldRequiredFlag f then [fieldJsonName f] else []) ++ requiredOfFields rest

/-- The `properties` map built by the loop (`properties[fieldName] = ...`,
so a later duplicate JSON name overwrites an earlier one). -/
def propertiesOfFields (fields : List GoField) : List (String × FieldSchema) :=
  fields.foldl
    (fun props f => aupsert props (fieldJsonName f) (getFieldSchema f.value f.exampleTag)) []

/-- An example value handed to `generateSchemaFromStruct` (a Go
`interface{}`): the nil interface, a struct value, a non-nil pointer, a
nil typed pointer, or any other (scalar/collection) value. -/
inductive GoExample where
  | nilInterface
  | structVal : List GoField → GoExample
  | ptrTo : GoExample → GoExample
  | nilPtr
  | scalar : GoVal → GoExample
deriving DecidableEq, Repr

/-- Model of `router.Schema` / the `map[string]interface{}` schema object
that `generateSchemaFromStruct` returns. An absent `required` key is the
empty list (the code only adds the key when the list is non-empty). -/
structure SchemaObj where
  type : String
  properties : List (String × FieldSchema)
  required : List String
  exampleVal : Option GoExample
deriving DecidableEq, Repr

/-- Model of `(*GoAPI).generateSchemaFromStruct`: a nil example yields an
empty object schema; otherwise the example is recorded, a non-nil pointer
is dereferenced once, and only a struct value contributes properties and
required fields. -/
def generateSchemaFromStruct (ex0 : GoExample) : SchemaObj :=
  match ex0 with
  | .nilInterface => { type := "object", properties := [], required := [], exampleVal := none }
  | e =>
      let v := match e with
        | .ptrTo pointee => pointee
        | other => other
      match v with
      | .structVal fields =>
          { type := "object", properties := propertiesOfFields fields,
            required := requiredOfFields fields, exampleVal := some e }
      | _ => { type := "object", properties := [], required := [], exampleVal := some e }

/-- Model of `router.Parameter`.  `Schema` is the example value attached to
body parameters (`nil` interface when absent); the Go field `Type` is
rendered `PType` because `Type` is reserved in Lean. -/
structure Parameter where
  Name : String
  In : String
  PType : String
  Format : String
  Required : Bool
  Description : String
  Schema : Option GoExample
deriving DecidableEq, Repr

/-- Model of `router.Route`: the documentation metadata of one declared
endpoint.  The opaque `gin.HandlerFunc` is never inspected by the
assembler and is omitted. -/
structure Route where
  Method : String
  Path : String
  Tags : List String
  Summary : String
  Description : String
  Responses : List (Nat × String)
  Parameters : List Parameter
deriving DecidableEq, Repr

/-- One entry of the `parameters` array of an assembled operation (a
`map[string]interface{}` in Go); absent keys are `none` / the empty list. -/
structure DocParam where
  name : String
  In : String
  required : Bool
  description : String
  type : Option String
  format : Option String
  schema : Option SchemaObj
deriving DecidableEq, Repr

/-- The parameter object `extractParameters` builds for one `:name` path
segment: location `path`, required, typed by the `switch` on the name. -/
def extractedParam (paramName : String) : DocParam :=
  match paramName with
  | "id" =>
      { name := paramName, In := "path", required := true,
        description := "ID del recurso", type := some "integer",
        format := some "int64", schema := none }
  | "userId" | "user_id" =>
      { name := paramName, In := "path", required := true,
        description := "ID del usuario", type := some "integer",
        format := some "int64", schema := none }
  | _ =>
      { name := paramName, In := "path", required := true,
        description := "Parámetro " ++ paramName, type := some "string",
        format := none, schema := none }

/-- Go `strings.HasPrefix(segment, ":")` combined with `segment[1:]`: the
parameter name when the segment carries the `:` sigil, `none` otherwise. -/
def segmentParamName (segment : String) : Option String :=
  match segment.data with
  | c :: nameChars => if c = ':' then some (String.mk nameChars) else none
  | [] => none

/-- Model of `(*GoAPI).extractParameters`: split the path template on `/`
and emit one parameter per segment that starts with the `:` sigil. -/
def extractParameters (path : String) : List DocParam :=
  (goSplit path '/').foldl
    (fun parameters segment =>
      match segmentParamName segment with
      | some paramName => parameters ++ [extractedParam paramName]
      | none => parameters) []

/-- Model of `(*GoAPI).convertToOpenAPIPath`: rewrite each `:name` segment
to a brace-wrapped name and rejoin on `/`. -/
def convertToOpenAPIPath (path : String) : String :=
  joinSlash ((goSplit path '/').map fun segment =>
    match segmentParamName segment with
    | some paramName => "\x7b" ++ paramName ++ "\x7d"
    | none => segment)

/-- The parameter object `getRouteParameters` builds from one
caller-declared `router.Parameter`: a body parameter with a schema example
gets a synthesized schema, any other parameter gets its declared type and
(when non-empty) format. -/
def docParamOfParameter (p : Parameter) : DocParam :=
  if p.In = "body" ∧ p.Schema.isSome then
    { name := p.Name, In := p.In, required := p.Required,
      description := p.Description, type := none, format := none,
      schema := p.Schema.map generateSchemaFromStruct }
  else
    { name := p.Name, In := p.In, required := p.Required,
      description := p.Description, type := some p.PType,
      format := if p.Format = "" then none else some p.Format,
      schema := none }

/-- Model of `(*GoAPI).getRouteParameters`: the caller-declared parameters
in order; automatic extraction from the path template runs only when the
route carries zero declared parameters. -/
def getRouteParameters (route : Route) : List DocParam :=
  let parameters := route.Parameters.map docParamOfParameter
  if route.Parameters.length = 0 then extractParameters route.Path
  else parameters

/-- The operation object built for one route in the loop of
`getSwaggerJSON` (summary/description/tags fall back to fixed placeholders
when empty; the single `200` response is fixed). -/
structure Operation where
  summary : String
  description : String
  tags : List String
  parameters : List DocParam
  responseDescription : String
  responseSchemaType : String
deriving DecidableEq, Repr

/-- The operation `getSwaggerJSON` builds for one route. -/
def routeOperation (route : Route) : Operation :=
  { summary := if route.Summary = "" then "API endpoint" else route.Summary
    description :=
      if route.Description = "" then "API endpoint description" else route.Description
    tags := if route.Tags = [] then ["default"] else route.Tags
    parameters := getRouteParameters route
    responseDescription := "Successful response"
    responseSchemaType := "object" }

/-- The fixed set of self-documentation paths that `getSwaggerJSON` skips. -/
def isDocPath (path : String) : Bool :=
  path = "/" || path = "/docs" || path = "/redoc" || path = "/swagger/*any" ||
  path = "/redoc/index.html" || path = "/openapi.json" || path = "/docs-static/*filepath"

/-- A path item: the map from lowercased HTTP method to operation. -/
abbrev PathItem : Type := List (String × Operation)

/-- The `paths` object: the map from converted path to path item. -/
abbrev SwaggerPaths : Type := List (String × PathItem)

/-- The body of the route loop in `getSwaggerJSON`: skip documentation
paths, convert the path, fetch (or create) its path item, and store the
route's operation under the lowercased method — overwriting any operation
an earlier route put there. -/
def swaggerPathsStep (paths : SwaggerPaths) (route : Route) : SwaggerPaths :=
  if isDocPath route.Path then paths
  else
    let openAPIPath := convertToOpenAPIPath route.Path
    let pathItem := (alookup paths openAPIPath).getD []
    aupsert paths openAPIPath
      (aupsert pathItem (goToLower route.Method) (routeOperation route))

/-- The `paths` object `getSwaggerJSON` assembles from the registered
routes (the rest of the document is route-independent metadata). -/
def swaggerPaths (routes : List Route) : SwaggerPaths :=
  routes.foldl swaggerPathsStep []

/-- Look up the operation the assembled document carries for a converted
path and lowercased method. -/
def lookupOperation (paths : SwaggerPaths) (path method : String) : Option Operation :=
  (alookup paths path).bind fun pathItem => alookup pathItem method

/-- The last route of the list that survives the documentation-path filter
and lands on the given converted path and lowercased method. -/
def lastMatching (path method : String) : List Route → Option Route
  | [] => none
  | r :: rest =>
      match lastMatching path method rest with
      | some r' => some r'
      | none =>
          if isDocPath r.Path = false ∧ convertToOpenAPIPath r.Path = path ∧
              goToLower r.Method = method then some r
          else none

/-- A route declared with one explicit path parameter. -/
def explicitParamRoute : Route :=
  { Method := "GET", Path := "/users/:id", Tags := [], Summary := "Get user",
    Description := "", Responses := [],
    Parameters := [{ Name := "id", In := "path", PType := "integer", Format := "int64",
                     Required := true, Description := "User ID", Schema := none }] }

/-- Two registrations of `GET /a` with different summaries, for the
last-write-wins scenario. -/
def firstGetA : Route :=
  { Method := "GET", Path := "/a", Tags := [], Summary := "first summary",
    Description := "", Responses := [], Parameters := [] }

/-- The later registration of `GET /a`. -/
def secondGetA : Route :=
  { Method := "GET", Path := "/a", Tags := [], Summary := "second summary",
    Description := "", Responses := [], Parameters := [] }

/-- Phase of one goroutine running the memoizing closure stored by
`RegisterSingleton` (called directly, so the container's read lock of
`Resolve` is not held).  The closure's read-locked cache check is one
atomic phase and the write-locked section (re-check, provider invocation,
store) is another: both are sound reductions, because every access the
closure makes to the shared cache happens under the corresponding lock
mode, so no other goroutine can observe an intermediate state of either
section. -/
inductive RacePhase where
  | readCheck
  | lockedSection
  | finished
deriving DecidableEq, Repr

/-- Shared state and per-goroutine state of two goroutines racing through
the memoizing closure: the cache entry for the singleton's type key, the
number of invocations of the underlying user provider, and each
goroutine's phase and returned instance.  Instances are `Nat` identity
tokens; the underlying provider returns a fresh token (the invocation
count) each time it is invoked, so distinct invocations yield instances
that are not reference-equal. -/
structure RaceState where
  cache : Option Nat
  calls : Nat
  phase1 : RacePhase
  result1 : Option Nat
  phase2 : RacePhase
  result2 : Option Nat
deriving DecidableEq, Repr

/-- One goroutine's atomic phase transition through the closure:
`readCheck` is `RLock; read dc.instances[key]; RUnlock` — a hit returns
the cached instance, a miss falls through to the locked section;
`lockedSection` is `Lock; re-check; invoke provider; store; Unlock` —
the double-check returns the cached instance if the race was lost,
otherwise the provider is invoked and its fresh instance stored. -/
def goroutinePhaseStep (cache : Option Nat) (calls : Nat) (phase : RacePhase)
    (result : Option Nat) : Option Nat × Nat × RacePhase × Option Nat :=
  match phase, cache with
  | .readCheck, some v => (some v, calls, .finished, some v)
  | .readCheck, none => (none, calls, .lockedSection, result)
  | .lockedSection, some v => (some v, calls, .finished, some v)
  | .lockedSection, none => (some calls, calls + 1, .finished, some calls)
  | .finished, c => (c, calls, .finished, result)

/-- Interleaving step: the scheduled goroutine (`true` for the first)
takes its next atomic phase. -/
def raceStep (s : RaceState) (g : Bool) : RaceState :=
  if g then
    match goroutinePhaseStep s.cache s.calls s.phase1 s.result1 with
    | (cache, calls, phase, result) =>
        { s with cache := cache, calls := calls, phase1 := phase, result1 := result }
  else
    match goroutinePhaseStep s.cache s.calls s.phase2 s.result2 with
    | (cache, calls, phase, result) =>
        { s with cache := cache, calls := calls, phase2 := phase, result2 := result }

/-- Both goroutines start before any instance exists for the type key. -/
def raceInit : RaceState := ⟨none, 0, .readCheck, none, .readCheck, none⟩

/-- Run the two racing goroutines under an arbitrary schedule. -/
def raceRun (schedule : List Bool) : RaceState := schedule.foldl raceStep raceInit

/-- Invariant of the race: the cache is only ever filled by the single
provider invocation (token `0`), the call counter matches the cache state,
and a finished goroutine's result is the cached instance. -/
def RaceInv (s : RaceState) : Prop :=
  (s.cache = none → s.calls = 0) ∧
  (∀ v, s.cache = some v → v = 0 ∧ s.calls = 1) ∧
  (s.phase1 = .finished → s.result1 = s.cache ∧ s.cache.isSome = true) ∧
  (s.phase2 = .finished → s.result2 = s.cache ∧ s.cache.isSome = true)

/-- Program counter of the single goroutine that performs the FIRST
`Resolve` of a singleton-registered type, at the granularity of the
`sync.RWMutex` operations the code performs.  `resolveRLock` is the
`dc.mutex.RLock()` at the top of `Resolve` (its `RUnlock` is deferred, so
`resolveRUnlock` comes after the stored closure has returned); the
`closure*` counters are the operations of the closure stored by
`RegisterSingleton`, which locks the same `dc.mutex`. -/
inductive ResolvePC where
  | resolveRLock
  | lookupProvider
  | closureRLock
  | closureReadCheck
  | closureRUnlockHit
  | closureRUnlockMiss
  | closureWriteLock
  | closureDoubleCheck
  | invokeProvider
  | storeInstance
  | closureWriteUnlock
  | resolveRUnlock
  | done
deriving DecidableEq, Repr

/-- State of the first singleton resolution: program counter, how many
read locks of `dc.mutex` are held, whether its write lock is held, and the
cache entry for the singleton's type key. -/
structure LockState where
  pc : ResolvePC
  readers : Nat
  writerHeld : Bool
  cache : Option Nat
deriving DecidableEq, Repr

/-- One step of the resolution, with `sync.RWMutex` semantics: `RLock`
needs the writer absent, `Lock` needs the writer absent and all readers
gone; a lock operation whose condition fails leaves the state unchanged
(the goroutine stays blocked).  The underlying user provider succeeds
immediately (`invokeProvider` → `storeInstance`), so any failure to reach
`done` is the locking discipline's fault, not the provider's. -/
def resolveLockStep (s : LockState) : LockState :=
  match s.pc with
  | .resolveRLock =>
      if s.writerHeld then s
      else { s with pc := .lookupProvider, readers := s.readers + 1 }
  | .lookupProvider => { s with pc := .closureRLock }
  | .closureRLock =>
      if s.writerHeld then s
      else { s with pc := .closureReadCheck, readers := s.readers + 1 }
  | .closureReadCheck =>
      match s.cache with
      | some _ => { s with pc := .closureRUnlockHit }
      | none => { s with pc := .closureRUnlockMiss }
  | .closureRUnlockHit => { s with pc := .resolveRUnlock, readers := s.readers - 1 }
  | .closureRUnlockMiss => { s with pc := .closureWriteLock, readers := s.readers - 1 }
  | .closureWriteLock =>
      if s.readers = 0 ∧ s.writerHeld = false
      then { s with pc := .closureDoubleCheck, writerHeld := true }
      else s
  | .closureDoubleCheck =>
      match s.cache with
      | some _ => { s with pc := .closureWriteUnlock }
      | none => { s with pc := .invokeProvider }
  | .invokeProvider => { s with pc := .storeInstance }
  | .storeInstance => { s with pc := .closureWriteUnlock, cache := some 0 }
  | .closureWriteUnlock => { s with pc := .resolveRUnlock, writerHeld := false }
  | .resolveRUnlock => { s with pc := .done, readers := s.readers - 1 }
  | .done => s

/-- The first resolution starts with no locks held and an empty cache. -/
def resolveLockInit : LockState := ⟨.resolveRLock, 0, false, none⟩

/-- The (deterministic) execution of the first singleton resolution. -/
def resolveLockRun : Nat → LockState
  | 0 => resolveLockInit
  | n + 1 => resolveLockStep (resolveLockRun n)

/-- The state the first singleton resolution gets stuck in: blocked at
`dc.mutex.Lock()` while the goroutine itself still holds the read lock
that `Resolve` deferred. -/
def singletonDeadlockState : LockState := ⟨.closureWriteLock, 1, false, none⟩

theorem raceInv_init : RaceInv raceInit := by
  refine ⟨fun _ => rfl, fun v h => ?_, fun h => ?_, fun h => ?_⟩ <;> simp [raceInit] at h

theorem raceInv_step (s : RaceState) (g : Bool) (h : RaceInv s) : RaceInv (raceStep s g) := by
  obtain ⟨h0, h1, h2, h3⟩ := h
  rcases s with ⟨cache, calls, ph1, r1, ph2, r2⟩
  cases g <;> cases ph1 <;> cases ph2 <;> cases cache <;>
    simp_all [RaceInv, raceStep, goroutinePhaseStep]

theorem raceInv_run (schedule : List Bool) : RaceInv (raceRun schedule) := by
  suffices h : ∀ (sched : List Bool) (s : RaceState), RaceInv s → RaceInv (sched.foldl raceStep s) by
    exact h schedule raceInit raceInv_init
  intro sched
  induction sched with
  | nil => intro s hs; exact hs
  | cons b rest ih => intro s hs; exact ih _ (raceInv_step s b hs)

/-- Claim C1: for any two calls to the provider stored by
`RegisterSingleton` made concurrently before any instance exists for the
type key — any interleaving of the two goroutines' phases under which both
complete — the underlying user-supplied provider is invoked exactly once,
and both callers observe the same resulting instance (the same identity
token, the model of Go reference equality). -/
theorem c1_singleton_provider_invoked_once (schedule : List Bool)
    (h1 : (raceRun schedule).phase1 = .finished)
    (h2 : (raceRun schedule).phase2 = .finished) :
    (raceRun schedule).calls = 1 ∧
    ∃ v, (raceRun schedule).result1 = some v ∧ (raceRun schedule).result2 = some v := by
  obtain ⟨h0, hv, hp1, hp2⟩ := raceInv_run schedule
  obtain ⟨e1, hs⟩ := hp1 h1
  obtain ⟨e2, _⟩ := hp2 h2
  cases hcache : (raceRun schedule).cache with
  | none => rw [hcache] at hs; simp at hs
  | some v =>
      refine ⟨(hv v hcache).2, v, ?_, ?_⟩
      · rw [e1, hcache]
      · rw [e2, hcache]

/-- Witness for C1: the schedule where the first goroutine misses the
cache, takes the write lock and invokes the provider, after which the
second goroutine hits the cache in its read-locked check. -/
theorem c1_singleton_provider_invoked_once_witness :
    (raceRun [true, true, false]).calls = 1 ∧
    ∃ v, (raceRun [true, true, false]).result1 = some v ∧
      (raceRun [true, true, false]).result2 = some v :=
  c1_singleton_provider_invoked_once [true, true, false] (by decide) (by decide)

theorem resolveLockRun_stuck (n : Nat) :
    resolveLockRun (n + 5) = singletonDeadlockState := by
  induction n with
  | zero => rfl
  | succ k ih =>
      show resolveLockStep (resolveLockRun (k + 5)) = singletonDeadlockState
      rw [ih]
      rfl

/-- Claim C2 fails on the code (code bug): on the first resolution of a
singleton-registered type, `Resolve` still holds `dc.mutex`'s read lock
(its `RUnlock` is deferred to the end of `Resolve`, after the provider
call) when the stored closure tries to take the write lock of the same
mutex — so after five steps the goroutine is permanently blocked at
`dc.mutex.Lock()` with one read lock held, and the `done` state is never
reached.  The claim's assertions — provider invoked outside the read lock,
a separate adapter lock, completion of the first singleton resolution —
are all false of this execution. -/
theorem c2_first_singleton_resolution_deadlocks :
    (∀ n, resolveLockRun (n + 5) = singletonDeadlockState) ∧
    singletonDeadlockState.pc = .closureWriteLock ∧
    singletonDeadlockState.readers = 1 ∧
    (∀ n, ((resolveLockRun n).pc == ResolvePC.done) = false) := by
  refine ⟨resolveLockRun_stuck, rfl, rfl, ?_⟩
  intro n
  match n with
  | 0 | 1 | 2 | 3 | 4 => rfl
  | k + 5 => rw [resolveLockRun_stuck]; rfl

/-- Claim C3: resolving a pointer target whose pointee type has no
registered provider fails with the "no provider" error and leaves the
container — both maps — unchanged (and, the model being a total function,
does not panic); resolving a registered provider whose invocation fails
returns the provider's error wrapped with the resolution context. -/
theorem c3_resolve_failure_modes :
    (∀ (dc : DependencyContainer) (c : Ctx) (elementType : GoType),
      alookup dc.providers elementType = none →
      resolve dc c (.ptr elementType) =
        (.error ("no provider registered for type " ++ typeString elementType), dc)) ∧
    (∀ (dc : DependencyContainer) (c : Ctx) (elementType : GoType) (p : Provider)
        (e : String) (inst' : Instances),
      alookup dc.providers elementType = some p →
      p c dc.instances = (.error e, inst') →
      (resolve dc c (.ptr elementType)).1 =
        .error ("error resolving dependency: " ++ e)) := by
  constructor
  · intro dc c elementType h
    simp [resolve, h]
  · intro dc c elementType p e inst' hp he
    simp [resolve, hp, he]

/-- Witness for C3: the empty container has no provider for `Database`, so
resolution fails with the "no provider" error and the container is
unchanged; the failing `Database` provider's error comes back wrapped. -/
theorem c3_resolve_failure_modes_witness :
    (resolve newDependencyContainer () (.ptr (.named "Database")) =
      (.error ("no provider registered for type " ++ typeString (.named "Database")),
        newDependencyContainer)) ∧
    ((resolve failingProviderContainer () (.ptr (.named "Database"))).1 =
      .error ("error resolving dependency: " ++ "failed to connect to database")) :=
  ⟨c3_resolve_failure_modes.1 newDependencyContainer () (.named "Database") (by rfl),
   c3_resolve_failure_modes.2 failingProviderContainer () (.named "Database")
     (liftProvider fun _ => .error "failed to connect to database")
     "failed to connect to database" [] (by rfl) (by rfl)⟩

/-- Claim C10: `Register` and `RegisterSingleton` key the provider map on
the witness's type with one pointer level stripped, while `Resolve` strips
exactly one pointer level from its target — so resolution can only succeed
when the target's immediate pointee equals the normalized registration
key; and in the repository's own advanced example, which registers a
singleton with witness `(*UserService)(nil)` and resolves into a
`*UserService` variable (target type `**UserService`), `Resolve` fails
with the "no provider" error. -/
theorem c10_pointer_key_asymmetry :
    (∀ (p : Provider) (witness target : GoType) (c : Ctx) (v : Value),
      (resolve (register newDependencyContainer p witness) c target).1 = .ok v →
      target = .ptr (normalizeKey witness)) ∧
    (∀ (p : Provider) (witness target : GoType) (c : Ctx) (v : Value),
      (resolve (registerSingleton newDependencyContainer p witness) c target).1 = .ok v →
      target = .ptr (normalizeKey witness)) ∧
    ((resolve advancedExampleContainer () (.ptr (.ptr (.named "UserService")))).1 =
      .error "no provider registered for type *UserService") := by
  refine ⟨?_, ?_, rfl⟩ <;> intro p witness target c v h
  all_goals
    match target with
    | .named s => simp [resolve] at h
    | .ptr elementType =>
        by_cases he : elementType = normalizeKey witness
        · rw [he]
        · exfalso
          have hne : normalizeKey witness ≠ elementType := fun hx => he hx.symm
          simp [resolve, register, registerSingleton, newDependencyContainer,
            aupsert, alookup, hne] at h

/-- Witness for C10: with the advanced example's registration, resolving a
target whose immediate pointee is `UserService` itself succeeds, and the
theorem forces that target shape. -/
theorem c10_pointer_key_asymmetry_witness :
    GoType.ptr (.named "UserService") = .ptr (normalizeKey (.ptr (.named "UserService"))) :=
  c10_pointer_key_asymmetry.2.1 (liftProvider fun _ => .ok 0)
    (.ptr (.named "UserService")) (.ptr (.named "UserService")) () 0 (by rfl)

theorem fieldRequiredFlag_eq_not_marker (f : GoField) :
    fieldRequiredFlag f = !hasOmitEmptyMarker f := by
  unfold fieldRequiredFlag hasOmitEmptyMarker
  by_cases h : f.jsonTag ≠ "" ∧ f.jsonTag ≠ "-"
  · simp [h]
  · rw [if_neg h]
    rcases not_and_or.mp h with h' | h' <;> rw [not_not] at h' <;> rw [h'] <;> decide

theorem requiredOfFields_eq_filter (fields : List GoField) :
    requiredOfFields fields =
      (fields.filter fun f => !hasOmitEmptyMarker f).map fieldJsonName := by
  induction fields with
  | nil => rfl
  | cons f rest ih =>
      rw [requiredOfFields, List.filter_cons, fieldRequiredFlag_eq_not_marker, ih]
      cases hmark : hasOmitEmptyMarker f <;> simp

/-- Claim C4: for an example value that is a flat record with only
primitive fields, the synthesized schema's required-field list is exactly
the (serialized names of the) fields lacking an omit-when-empty marker in
their `json` tag, in declaration order — in particular a field with no tag
at all lacks the marker and is required. -/
theorem c4_required_fields (fields : List GoField)
    (hprim : ∀ f ∈ fields, isPrimitiveKind f.value = true) :
    (generateSchemaFromStruct (.structVal fields)).required =
      (fields.filter fun f => !hasOmitEmptyMarker f).map fieldJsonName := by
  show requiredOfFields fields = _
  exact requiredOfFields_eq_filter fields

/-- Witness for C4: a flat record with an untagged field, a renamed
required field and an `omitempty` field. -/
theorem c4_required_fields_witness :
    (generateSchemaFromStruct (.structVal
        [⟨"ID", "id", "", .vInt⟩, ⟨"Nickname", "nickname,omitempty", "", .vString⟩,
         ⟨"Age", "", "", .vInt⟩])).required =
      ([⟨"ID", "id", "", .vInt⟩, ⟨"Nickname", "nickname,omitempty", "", .vString⟩,
        ⟨"Age", "", "", .vInt⟩].filter fun f => !hasOmitEmptyMarker f).map fieldJsonName :=
  c4_required_fields
    [⟨"ID", "id", "", .vInt⟩, ⟨"Nickname", "nickname,omitempty", "", .vString⟩,
     ⟨"Age", "", "", .vInt⟩] (by decide)

/-- Claim C5: the synthesized field schema's type/format pair is
`("integer","int64")` for every signed and unsigned integer kind,
`("number","float")` for 32-bit and `("number","double")` for 64-bit
floating point, `"boolean"` for bool, `"string"` for string, `"array"`
with item type `"string"` for slice/array kinds; a non-nil pointer field
is unwrapped to its pointee's field schema, and a nil pointer and every
unhandled kind fall back to `"string"`. -/
theorem c5_field_schema_mapping (exampleTag : String) :
    (∀ k ∈ [GoVal.vInt, .vInt8, .vInt16, .vInt32, .vInt64,
            .vUint, .vUint8, .vUint16, .vUint32, .vUint64],
      (getFieldSchema k exampleTag).type = "integer" ∧
      (getFieldSchema k exampleTag).format = some "int64") ∧
    ((getFieldSchema .vFloat32 exampleTag).type = "number" ∧
      (getFieldSchema .vFloat32 exampleTag).format = some "float") ∧
    ((getFieldSchema .vFloat64 exampleTag).type = "number" ∧
      (getFieldSchema .vFloat64 exampleTag).format = some "double") ∧
    ((getFieldSchema .vBool exampleTag).type = "boolean") ∧
    ((getFieldSchema .vString exampleTag).type = "string") ∧
    (∀ k ∈ [GoVal.vSlice, .vArray],
      (getFieldSchema k exampleTag).type = "array" ∧
      (getFieldSchema k exampleTag).itemsType = some "string") ∧
    (∀ pointee, getFieldSchema (.vPtr pointee) exampleTag =
      getFieldSchema pointee exampleTag) ∧
    ((getFieldSchema .vNilPtr exampleTag).type = "string" ∧
      (getFieldSchema .vNilPtr exampleTag).format = none) ∧
    ((getFieldSchema .vOther exampleTag).type = "string" ∧
      (getFieldSchema .vOther exampleTag).format = none) := by
  refine ⟨?_, ⟨rfl, rfl⟩, ⟨rfl, rfl⟩, rfl, rfl, ?_, fun pointee => rfl, ⟨rfl, rfl⟩, ⟨rfl, rfl⟩⟩
  · intro k hk
    fin_cases hk <;> exact ⟨rfl, rfl⟩
  · intro k hk
    fin_cases hk <;> exact ⟨rfl, rfl⟩

/-- Witness for C5: the integer clause at the `int32` kind. -/
theorem c5_field_schema_mapping_witness :
    (getFieldSchema .vInt32 "").type = "integer" ∧
    (getFieldSchema .vInt32 "").format = some "int64" :=
  (c5_field_schema_mapping "").1 .vInt32 (by decide)

theorem extractedParam_name (n : String) : (extractedParam n).name = n := by
  unfold extractedParam
  split <;> rfl

theorem extractedParam_props (n : String) :
    (extractedParam n).In = "path" ∧ (extractedParam n).required = true ∧
    ((n = "id" ∨ n = "userId" ∨ n = "user_id") →
      (extractedParam n).type = some "integer" ∧ (extractedParam n).format = some "int64") ∧
    ((n ≠ "id" ∧ n ≠ "userId" ∧ n ≠ "user_id") →
      (extractedParam n).type = some "string" ∧ (extractedParam n).format = none) := by
  unfold extractedParam
  split <;> simp_all

theorem extractParameters_foldl (segs : List String) (acc : List DocParam) :
    segs.foldl (fun parameters segment =>
      match segmentParamName segment with
      | some paramName => parameters ++ [extractedParam paramName]
      | none => parameters) acc
    = acc ++ segs.filterMap (fun segment => (segmentParamName segment).map extractedParam) := by
  induction segs generalizing acc with
  | nil => simp
  | cons seg rest ih =>
      rw [List.foldl_cons, List.filterMap_cons]
      cases h : segmentParamName seg with
      | none => simp only [h, Option.map_none']; rw [ih]
      | some n => simp only [h, Option.map_some']; rw [ih]; simp

theorem extractParameters_eq (path : String) :
    extractParameters path =
      (goSplit path '/').filterMap
        (fun segment => (segmentParamName segment).map extractedParam) := by
  unfold extractParameters
  rw [extractParameters_foldl]
  rfl

/-- Claim C6: parameter extraction yields exactly one parameter per path
segment carrying the `:` sigil (same names, same order), each with
location `path` and required `true`; parameters named `id`, `userId` or
`user_id` are typed `("integer","int64")`, all others `"string"` with no
format. -/
theorem c6_extracted_parameters (path : String) :
    ((extractParameters path).map (fun p => p.name) =
      (goSplit path '/').filterMap segmentParamName) ∧
    (∀ p ∈ extractParameters path,
      p.In = "path" ∧ p.required = true ∧
      ((p.name = "id" ∨ p.name = "userId" ∨ p.name = "user_id") →
        p.type = some "integer" ∧ p.format = some "int64") ∧
      ((p.name ≠ "id" ∧ p.name ≠ "userId" ∧ p.name ≠ "user_id") →
        p.type = some "string" ∧ p.format = none)) := by
  constructor
  · rw [extractParameters_eq, List.map_filterMap]
    apply List.filterMap_congr
    intro seg _
    cases h : segmentParamName seg <;> simp [extractedParam_name]
  · intro p hp
    rw [extractParameters_eq] at hp
    obtain ⟨seg, _, hmap⟩ := List.mem_filterMap.mp hp
    cases h : segmentParamName seg with
    | none => rw [h] at hmap; simp at hmap
    | some n =>
        rw [h] at hmap
        simp only [Option.map_some', Option.some_inj] at hmap
        subst hmap
        simpa only [extractedParam_name] using extractedParam_props n

/-- Witness for C6: the parameter extracted from `/users/:id`. -/
theorem c6_extracted_parameters_witness :
    (extractedParam "id").In = "path" ∧ (extractedParam "id").required = true ∧
    (((extractedParam "id").name = "id" ∨ (extractedParam "id").name = "userId" ∨
        (extractedParam "id").name = "user_id") →
      (extractedParam "id").type = some "integer" ∧
        (extractedParam "id").format = some "int64") ∧
    (((extractedParam "id").name ≠ "id" ∧ (extractedParam "id").name ≠ "userId" ∧
        (extractedParam "id").name ≠ "user_id") →
      (extractedParam "id").type = some "string" ∧ (extractedParam "id").format = none) :=
  (c6_extracted_parameters "/users/:id").2 (extractedParam "id") (by decide)

/-- Claim C7: a route registered with a non-empty explicit parameter list
yields an operation whose parameters are exactly those derived from the
explicit list, in order (auto-extraction does not run and appends
nothing); extraction from the path template runs only for a route with
zero explicit parameters; and the assembled document's operation for such
a route is `routeOperation`, whose parameters are the above. -/
theorem c7_explicit_parameters_take_precedence (route : Route) :
    (route.Parameters ≠ [] →
      (routeOperation route).parameters = route.Parameters.map docParamOfParameter) ∧
    (route.Parameters = [] →
      (routeOperation route).parameters = extractParameters route.Path) ∧
    (isDocPath route.Path = false →
      lookupOperation (swaggerPaths [route])
        (convertToOpenAPIPath route.Path) (goToLower route.Method) =
        some (routeOperation route)) := by
  refine ⟨?_, ?_, ?_⟩
  · intro h
    show getRouteParameters route = _
    simp [getRouteParameters, List.length_eq_zero, h]
  · intro h
    show getRouteParameters route = _
    simp [getRouteParameters, h]
  · intro h
    simp [swaggerPaths, swaggerPathsStep, lookupOperation, h, alookup, aupsert]

/-- Witness for C7: the route with one explicit path parameter keeps
exactly that parameter. -/
theorem c7_explicit_parameters_take_precedence_witness :
    (routeOperation explicitParamRoute).parameters =
      explicitParamRoute.Parameters.map docParamOfParameter :=
  (c7_explicit_parameters_take_precedence explicitParamRoute).1 (by decide)

theorem alookup_aupsert {κ β : Type} [DecidableEq κ]
    (l : List (κ × β)) (k k' : κ) (v : β) :
    alookup (aupsert l k v) k' = if k = k' then some v else alookup l k' := by
  induction l with
  | nil => simp [aupsert, alookup]
  | cons kv rest ih =>
      obtain ⟨k₀, v₀⟩ := kv
      by_cases h : k₀ = k
      · subst h
        by_cases h' : k₀ = k' <;> simp [aupsert, alookup, h']
      · by_cases h' : k₀ = k' <;> by_cases h'' : k = k' <;>
          simp_all [aupsert, alookup]

theorem lookupOperation_step (paths : SwaggerPaths) (r : Route) (key meth : String) :
    lookupOperation (swaggerPathsStep paths r) key meth =
      if isDocPath r.Path = false ∧ convertToOpenAPIPath r.Path = key ∧
          goToLower r.Method = meth
      then some (routeOperation r)
      else lookupOperation paths key meth := by
  by_cases hd : isDocPath r.Path
  · simp [swaggerPathsStep, hd]
  · by_cases hk : convertToOpenAPIPath r.Path = key
    · by_cases hm : goToLower r.Method = meth
      · simp [swaggerPathsStep, lookupOperation, hd, hk, hm, alookup_aupsert]
      · simp only [swaggerPathsStep, lookupOperation, hd, if_false, Bool.false_eq_true]
        rw [if_neg (by simp [hm])]
        rw [alookup_aupsert]
        rw [if_pos hk, hk]
        simp only [Option.some_bind]
        rw [alookup_aupsert, if_neg hm]
        cases hpk : alookup paths key <;> simp [hpk, alookup]
    · simp only [swaggerPathsStep, lookupOperation, hd, Bool.false_eq_true, if_false]
      rw [if_neg (by simp [hk])]
      rw [alookup_aupsert, if_neg hk]

theorem lookupOperation_foldl (routes : List Route) (paths : SwaggerPaths)
    (key meth : String) :
    lookupOperation (routes.foldl swaggerPathsStep paths) key meth =
      match lastMatching key meth routes with
      | some r => some (routeOperation r)
      | none => lookupOperation paths key meth := by
  induction routes generalizing paths with
  | nil => rfl
  | cons r rest ih =>
      rw [List.foldl_cons, ih (swaggerPathsStep paths r), lookupOperation_step]
      show _ = (match (match lastMatching key meth rest with
        | some r' => some r'
        | none => if isDocPath r.Path = false ∧ convertToOpenAPIPath r.Path = key ∧
              goToLower r.Method = meth then some r else none) with
        | some r' => some (routeOperation r')
        | none => lookupOperation paths key meth)
      cases hrest : lastMatching key meth rest with
      | some r' => rfl
      | none =>
          by_cases hcond : isDocPath r.Path = false ∧ convertToOpenAPIPath r.Path = key ∧
              goToLower r.Method = meth
          · rw [if_pos hcond, if_pos hcond]
          · rw [if_neg hcond, if_neg hcond]

theorem lastMatching_append (key meth : String) (l l' : List Route) :
    lastMatching key meth (l ++ l') =
      match lastMatching key meth l' with
      | some r => some r
      | none => lastMatching key meth l := by
  induction l with
  | nil => cases h : lastMatching key meth l' <;> simp [h, lastMatching]
  | cons r rest ih =>
      show (match lastMatching key meth (rest ++ l') with
        | some r' => some r'
        | none => _) = _
      rw [ih]
      cases h : lastMatching key meth l' with
      | some r' => rfl
      | none => rfl

theorem aupsert_keys {κ β : Type} [DecidableEq κ] (l : List (κ × β)) (k : κ) (v : β) :
    (aupsert l k v).map Prod.fst =
      if k ∈ l.map Prod.fst then l.map Prod.fst else l.map Prod.fst ++ [k] := by
  induction l with
  | nil => simp [aupsert]
  | cons kv rest ih =>
      obtain ⟨k₀, v₀⟩ := kv
      by_cases h : k₀ = k
      · subst h; simp [aupsert]
      · have h' : k ≠ k₀ := fun hx => h hx.symm
        simp [aupsert, h, h', ih]
        by_cases hm : k ∈ rest.map Prod.fst <;> simp [hm, h']

theorem aupsert_keys_nodup {κ β : Type} [DecidableEq κ] (l : List (κ × β)) (k : κ) (v : β)
    (h : (l.map Prod.fst).Nodup) : ((aupsert l k v).map Prod.fst).Nodup := by
  rw [aupsert_keys]
  by_cases hm : k ∈ l.map Prod.fst
  · rwa [if_pos hm]
  · rw [if_neg hm]
    simp [List.nodup_append, h, hm]

theorem swaggerPaths_item_nodup (routes : List Route) :
    ∀ key item, alookup (swaggerPaths routes) key = some item →
      (item.map Prod.fst).Nodup := by
  suffices aux : ∀ (rs : List Route) (paths : SwaggerPaths),
      (∀ key item, alookup paths key = some item → (item.map Prod.fst).Nodup) →
      (∀ key item, alookup (rs.foldl swaggerPathsStep paths) key = some item →
        (item.map Prod.fst).Nodup) by
    exact aux routes [] (fun key item h => by simp [alookup] at h)
  intro rs
  induction rs with
  | nil => intro paths hp; exact hp
  | cons r rest ih =>
      intro paths hp
      rw [List.foldl_cons]
      apply ih
      intro key item hitem
      by_cases hd : isDocPath r.Path
      · rw [swaggerPathsStep, if_pos hd] at hitem
        exact hp key item hitem
      · rw [swaggerPathsStep, if_neg hd] at hitem
        rw [alookup_aupsert] at hitem
        by_cases hk : convertToOpenAPIPath r.Path = key
        · rw [if_pos hk, Option.some_inj] at hitem
          rw [← hitem]
          apply aupsert_keys_nodup
          cases hbase : alookup paths (convertToOpenAPIPath r.Path) with
          | none => simp
          | some base => simpa [hbase] using hp _ base hbase
        · rw [if_neg hk] at hitem
          exact hp key item hitem

/-- Claim C8: when two routes with the same method and path template are
registered (the second one later), the assembled document carries, for the
converted path and lowercased method, exactly the operation of the
later-registered route — the path item maps each method to a single
operation (its method keys are duplicate-free) and that operation is
`routeOperation` of the second route, so in particular its summary is the
second route's summary when that is non-empty. -/
theorem c8_last_write_wins (rs : List Route) (r1 r2 : Route)
    (hm : r1.Method = r2.Method) (hp : r1.Path = r2.Path)
    (hd : isDocPath r2.Path = false) :
    lookupOperation (swaggerPaths (rs ++ [r1, r2]))
        (convertToOpenAPIPath r2.Path) (goToLower r2.Method) =
      some (routeOperation r2) ∧
    (∀ item, alookup (swaggerPaths (rs ++ [r1, r2]))
        (convertToOpenAPIPath r2.Path) = some item → (item.map Prod.fst).Nodup) ∧
    (r2.Summary ≠ "" → (routeOperation r2).summary = r2.Summary) := by
  refine ⟨?_, ?_, ?_⟩
  · show lookupOperation ((rs ++ [r1, r2]).foldl swaggerPathsStep []) _ _ = _
    rw [lookupOperation_foldl, lastMatching_append]
    have h2 : lastMatching (convertToOpenAPIPath r2.Path) (goToLower r2.Method) [r1, r2] =
        some r2 := by
      simp [lastMatching, hd]
    rw [h2]
  · exact fun item h => swaggerPaths_item_nodup (rs ++ [r1, r2]) _ item h
  · intro h
    simp [routeOperation, h]

/-- Witness for C8: `GET /a` registered twice; the document keeps the
second summary. -/
theorem c8_last_write_wins_witness :
    lookupOperation (swaggerPaths ([] ++ [firstGetA, secondGetA]))
        (convertToOpenAPIPath secondGetA.Path) (goToLower secondGetA.Method) =
      some (routeOperation secondGetA) ∧
    (routeOperation secondGetA).summary = "second summary" :=
  ⟨(c8_last_write_wins [] firstGetA secondGetA rfl rfl (by decide)).1,
   (c8_last_write_wins [] firstGetA secondGetA rfl rfl (by decide)).2.2 (by decide)⟩

/-- Claim C9: the formatter never fails (it is a total function into the
error list); an input that is not a collection of recognizable field
failures yields the empty sequence; a collection yields one record per
field failure; each of the eight recognized constraint tags produces its
message template with the field name and constraint parameter substituted;
and any unrecognized tag produces the generic fallback naming the field
and the raw tag. -/
theorem c9_format_validation_errors :
    (FormatValidationErrors none = []) ∧
    (∀ fieldErrors, FormatValidationErrors (some fieldErrors) =
      fieldErrors.map formatFieldError) ∧
    (∀ f p v', (formatFieldError ⟨f, "required", p, v'⟩).message =
      "El campo '" ++ f ++ "' es requerido") ∧
    (∀ f p v', (formatFieldError ⟨f, "min", p, v'⟩).message =
      "El campo '" ++ f ++ "' debe tener un valor mínimo de " ++ p) ∧
    (∀ f p v', (formatFieldError ⟨f, "max", p, v'⟩).message =
      "El campo '" ++ f ++ "' debe tener un valor máximo de " ++ p) ∧
    (∀ f p v', (formatFieldError ⟨f, "email", p, v'⟩).message =
      "El campo '" ++ f ++ "' debe ser un email válido") ∧
    (∀ f p v', (formatFieldError ⟨f, "url", p, v'⟩).message =
      "El campo '" ++ f ++ "' debe ser una URL válida") ∧
    (∀ f p v', (formatFieldError ⟨f, "len", p, v'⟩).message =
      "El campo '" ++ f ++ "' debe tener exactamente " ++ p ++ " caracteres") ∧
    (∀ f p v', (formatFieldError ⟨f, "gte", p, v'⟩).message =
      "El campo '" ++ f ++ "' debe ser mayor o igual a " ++ p) ∧
    (∀ f p v', (formatFieldError ⟨f, "lte", p, v'⟩).message =
      "El campo '" ++ f ++ "' debe ser menor o igual a " ++ p) ∧
    (∀ fe : FieldError, fe.tag ∉ recognizedTags →
      (formatFieldError fe).message =
        "El campo '" ++ fe.field ++ "' no cumple con la validación '" ++ fe.tag ++ "'") := by
  refine ⟨rfl, fun _ => rfl, fun f p v' => rfl, fun f p v' => rfl, fun f p v' => rfl,
    fun f p v' => rfl, fun f p v' => rfl, fun f p v' => rfl, fun f p v' => rfl,
    fun f p v' => rfl, ?_⟩
  intro fe h
  obtain ⟨f, t, p, v'⟩ := fe
  simp only [recognizedTags, List.mem_cons, List.not_mem_nil, or_false] at h
  push_neg at h
  obtain ⟨h1, h2, h3, h4, h5, h6, h7, h8⟩ := h
  simp only [formatFieldError]

/-- Witness for C9: the unrecognized tag `oneof` falls back to the generic
message. -/
theorem c9_format_validation_errors_witness :
    (formatFieldError ⟨"status", "oneof", "active inactive", "gone"⟩).message =
      "El campo '" ++ "status" ++ "' no cumple con la validación '" ++ "oneof" ++ "'" :=
  c9_format_validation_errors.2.2.2.2.2.2.2.2.2.2
    ⟨"status", "oneof", "active inactive", "gone"⟩ (by decide)
